import Mathlib

/-!
# gcs-helper: the proxy handler (`handlers/proxy.go`)

A shallow embedding of `proxyHandler.ServeHTTP` and of the `codeWrapper`
response decorator, followed by theorems about the handler's observable
behaviour: the response handed to the caller-facing sink, the requests
handed to the HTTP client, and the end-of-request log record.

Conventions of the embedding.

* A Go `string` is a Lean `String`; a Go `error` is represented by its
  message (`err.Error()`), and `err == nil` is `none`.
* `http.Header` is an association list from header names to value lists.
  The names stored in a map are in canonical MIME form, the form in which
  `net/http` delivers the keys of server requests and of client responses.
  The handler passes to `Add` only names taken from such maps, and
  `http.Error` passes literal canonical names to `Set` and `Del`; on these
  the canonicalisation is the identity and is not represented.  `Get`
  receives names from the configuration and canonicalises them.  The order
  of the list is one iteration order of the Go map.
* `http.ResponseWriter` is an interface; it is represented by a sink that
  behaves as the one of a `net/http` server in what `WriteHeader` accepts
  (it panics on a status outside 100..999 and treats 1xx other than 101 as
  informational) and that records the status, headers and body bytes the
  handler passes to it.
* A panic ends the body of the handler; the deferred log still runs.
* `http.NewRequest`, the HTTP client and the clock are outside the
  repository and are parameters of the handler.
* The deferred `Close` and `cancel` calls release resources only and leave
  no trace in the values modelled here.
-/

namespace GcsHelper

/-! ## Values from the Go standard library -/

/-- Raw bytes of a message body. -/
abbrev Bytes := List UInt8

/-- Bytes of a Go string as written by `fmt.Fprintln` or `io.WriteString`. -/
def bytesOf (s : String) : Bytes := s.toUTF8.data.toList

/-- Go `strings.HasSuffix(s, suffix)`. -/
def HasSuffix (s suffix : String) : Bool := suffix.data.isSuffixOf s.data

/-- Go `http.Header`: header name to the list of its values. -/
abbrev Header := List (String × List String)

/-- The map lookup `h[key]`, which is Go `Header.Values(key)` for a canonical
`key`: the values stored under `key`, none if absent. -/
def Header.Values : Header → String → List String
  | [], _ => []
  | (k, vs) :: rest, key => if k = key then vs else Header.Values rest key

/-- Go `textproto.validHeaderFieldByte`: the characters of a header name,
which are the ASCII letters, the digits and the fifteen punctuation marks of
an RFC 7230 token, the latter given by their codes. -/
def validHeaderFieldByte (c : Char) : Bool :=
  c.isAlphanum ||
    [33, 35, 36, 37, 38, 39, 42, 43, 45, 46, 94, 95, 96, 124, 126].contains c.toNat

/-- The loop of Go `textproto.canonicalMIMEHeaderKey`: upper case for the
first letter and for a letter after a dash, lower case for the others. -/
def canonicalLoop : Bool → List Char → List Char
  | _, [] => []
  | upper, c :: rest =>
    let c1 :=
      if upper && c.isLower then c.toUpper
      else if !upper && c.isUpper then c.toLower
      else c
    c1 :: canonicalLoop (c1 == '-') rest

/-- Go `textproto.CanonicalMIMEHeaderKey(s)`: a name made of header-name
characters is brought to canonical form, any other string is returned
unchanged. -/
def CanonicalMIMEHeaderKey (s : String) : String :=
  if s.data.all validHeaderFieldByte then String.mk (canonicalLoop true s.data) else s

/-- Go `Header.Get(key)`: the first value stored under the canonical form of
`key`, or `""`. -/
def Header.Get (h : Header) (key : String) : String :=
  match h.Values (CanonicalMIMEHeaderKey key) with
  | [] => ""
  | v :: _ => v

/-- Go `Header.Add(key, value)` for a canonical `key`: appends `value` to the
values of `key`. -/
def Header.Add : Header → String → String → Header
  | [], key, value => [(key, [value])]
  | (k, vs) :: rest, key, value =>
    if k = key then (k, vs ++ [value]) :: rest
    else (k, vs) :: Header.Add rest key value

/-- Go `Header.Set(key, value)` for a canonical `key`: replaces the values of
`key` by `[value]`. -/
def Header.Set : Header → String → String → Header
  | [], key, value => [(key, [value])]
  | (k, vs) :: rest, key, value =>
    if k = key then (k, [value]) :: rest
    else (k, vs) :: Header.Set rest key value

/-- Go `Header.Del(key)` for a canonical `key`: removes `key` and its values. -/
def Header.Del : Header → String → Header
  | [], _ => []
  | (k, vs) :: rest, key =>
    if k = key then Header.Del rest key else (k, vs) :: Header.Del rest key

/-- A header list represents a Go map when no name occurs twice. -/
def Header.WF (h : Header) : Prop := (h.map Prod.fst).Nodup

instance (h : Header) : Decidable h.WF := by
  unfold Header.WF; infer_instance

/-- Go `context.Context`, as far as the handler distinguishes contexts. -/
inductive Context where
  | Background : Context
  | Server (id : Nat) : Context
  | WithTimeout (parent : Context) (timeout : Int) : Context
deriving DecidableEq, Repr

/-- The part of `url.URL` of the inbound request that the handler reads:
the field `Path` and the result of the method `RequestURI()`. -/
structure URL where
  Path : String
  RequestURI : String
deriving DecidableEq, Repr

/-- The inbound `*http.Request` as the handler reads it. -/
structure InboundRequest where
  Method : String
  URL : URL
  Header : Header
  ctx : Context
deriving DecidableEq, Repr

/-- An outbound `*http.Request` as built by `http.NewRequest`. -/
structure Request where
  Method : String
  URL : String
  Header : Header
  Body : Option Bytes
  ctx : Context
deriving DecidableEq, Repr

/-- Go `Request.WithContext(ctx)`. -/
def Request.WithContext (req : Request) (ctx : Context) : Request :=
  { req with ctx := ctx }

/-- Go `http.NewRequest(method, url, nil)`.  Whether construction fails
(invalid method, URL that does not parse) is decided by `failure`, which
returns the error message; a request that is built has no header, no body
and the background context. -/
def NewRequest (failure : String → String → Option String)
    (method url : String) : Except String Request :=
  match failure method url with
  | some e => .error e
  | none => .ok { Method := method, URL := url, Header := [], Body := none,
                  ctx := Context.Background }

/-- An upstream `*http.Response`; `Body` is what reading the body yields. -/
structure Response where
  StatusCode : Int
  Header : Header
  Body : Bytes
deriving DecidableEq, Repr

/-- The caller-facing `http.ResponseWriter`: the header map returned by
`Header()`, whether the final status was sent, that status, the headers sent
with it, the body bytes written, and the informational 1xx statuses sent
ahead of the final one. -/
structure ResponseWriter where
  HeaderMap : Header
  wroteHeader : Bool
  Code : Int
  snapHeader : Header
  Body : Bytes
  informational : List Int
deriving DecidableEq, Repr

/-- A sink to which nothing has been written. -/
def ResponseWriter.fresh : ResponseWriter :=
  { HeaderMap := [], wroteHeader := false, Code := 0, snapHeader := [], Body := [],
    informational := [] }

/-- Go `http.checkWriteHeaderCode(code)`: a status code is accepted when it
has three digits; `WriteHeader` panics on any other. -/
def checkWriteHeaderCode (code : Int) : Bool :=
  decide (100 ≤ code) && decide (code ≤ 999)

/-- The sending of the final status `code` with the headers set so far. -/
def ResponseWriter.sendStatus (w : ResponseWriter) (code : Int) : ResponseWriter :=
  { w with wroteHeader := true, Code := code, snapHeader := w.HeaderMap }

/-- Go `ResponseWriter.WriteHeader(code)`; `none` is a panic.  Once the final
status was sent a call changes nothing; otherwise a code outside 100..999
panics, a 1xx code other than 101 is sent as an informational response and
leaves the final status open, and any other code is sent as the final status
together with the headers. -/
def ResponseWriter.WriteHeader (w : ResponseWriter) (code : Int) : Option ResponseWriter :=
  if w.wroteHeader then some w
  else if !checkWriteHeaderCode code then none
  else if decide (code ≤ 199) && code != 101 then
    some { w with informational := w.informational ++ [code] }
  else some (w.sendStatus code)

/-- Go `ResponseWriter.Write(b)`: sends status 200 first if no final status
was sent, then appends `b` to the body. -/
def ResponseWriter.Write (w : ResponseWriter) (b : Bytes) : ResponseWriter :=
  let w1 := if w.wroteHeader then w else w.sendStatus 200
  { w1 with Body := w1.Body ++ b }

/-- Go `io.Copy(w, body)`: the bytes of `body` are written to `w`; without
bytes there is no call of `Write`. -/
def Copy (w : ResponseWriter) (body : Bytes) : ResponseWriter :=
  if body.isEmpty then w else w.Write body

/-- Go `http.Error(w, error, code)`: deletes the content length, sets the
plain-text content type, sends `code`, and prints the message as one line
with `fmt.Fprintln`.  The result is the sink and whether `WriteHeader`
panicked. -/
def Error (w : ResponseWriter) (error : String) (code : Int) : ResponseWriter × Bool :=
  let h := w.HeaderMap.Del "Content-Length"
  let h := h.Set "Content-Type" "text/plain; charset=utf-8"
  let h := h.Set "X-Content-Type-Options" "nosniff"
  let w1 := { w with HeaderMap := h }
  match w1.WriteHeader code with
  | none => (w1, true)
  | some w2 => (w2.Write (bytesOf (error ++ "\n")), false)

/-! ## logrus -/

/-- Value of a log field. -/
inductive FieldValue where
  | str (s : String) : FieldValue
  | int (i : Int) : FieldValue
deriving DecidableEq, Repr

/-- Go `logrus.Fields`. -/
abbrev Fields := List (String × FieldValue)

/-- Assignment `fields[key] = value`. -/
def Fields.set : Fields → String → FieldValue → Fields
  | [], key, value => [(key, value)]
  | (k, v) :: rest, key, value =>
    if k = key then (k, value) :: rest else (k, v) :: Fields.set rest key value

/-- Lookup `fields[key]`. -/
def Fields.get : Fields → String → Option FieldValue
  | [], _ => none
  | (k, v) :: rest, key => if k = key then some v else Fields.get rest key

/-- The logrus level `ErrorLevel`. -/
def ErrorLevel : Nat := 2

/-- The logrus level `DebugLevel`. -/
def DebugLevel : Nat := 5

/-- Go `*logrus.Logger`, reduced to its verbosity. -/
structure Logger where
  Level : Nat
deriving DecidableEq, Repr

/-- An emitted log entry. -/
structure Entry where
  Level : Nat
  Message : String
  Data : Fields
deriving DecidableEq, Repr

/-- Emission of an entry at `level`: kept if the logger enables the level. -/
def Logger.emit (l : Logger) (out : List Entry) (level : Nat) (data : Fields)
    (msg : String) : List Entry :=
  if l.Level ≥ level then out ++ [{ Level := level, Message := msg, Data := data }]
  else out

/-! ## The handler -/

/-- Modelled from the spec: the type `Config` is declared outside
`proxy.go`; these are the fields the handler reads, the proxy timeout being
a duration in nanoseconds. -/
structure ProxyConfig where
  Endpoint : String
  BucketOnPath : Bool
  LogHeaders : List String
  Timeout : Int
deriving DecidableEq, Repr

/-- Modelled from the spec: the type `Config` is declared outside
`proxy.go`; these are the fields the handler reads. -/
structure Config where
  BucketName : String
  IndexFilename : String
  Proxy : ProxyConfig
deriving DecidableEq, Repr

/-- The response decorator `codeWrapper`. -/
structure codeWrapper where
  code : Int
  ResponseWriter : ResponseWriter
deriving DecidableEq, Repr

/-- The method `codeWrapper.WriteHeader`: the code is stored, then passed to
the wrapped sink; the result is the wrapper and whether the sink panicked. -/
def codeWrapper.WriteHeader (w : codeWrapper) (code : Int) : codeWrapper × Bool :=
  match w.ResponseWriter.WriteHeader code with
  | some w1 => ({ code := code, ResponseWriter := w1 }, false)
  | none => ({ code := code, ResponseWriter := w.ResponseWriter }, true)

/-- The `*http.Client`: `Do` runs a request in client state `σ`. -/
structure Client (σ : Type) where
  Do : σ → Request → Except String Response × σ

/-- The type `proxyHandler`. -/
structure proxyHandler (σ : Type) where
  config : Config
  logger : Logger
  hc : Client σ

/-- What lies outside the repository and the handler depends on: when
`http.NewRequest` fails, and the text of `time.Since(start)` at return. -/
structure Ambient where
  newRequestFailure : String → String → Option String
  ellapsed : String

/-- State of one run of `ServeHTTP`: the wrapper `resp` around the caller's
sink `w` (both name the same sink), the variable `err`, the client state,
the requests passed to `hc.Do` in order, the log, standard output, and
whether the body of the handler ended in a panic. -/
structure State (σ : Type) where
  resp : codeWrapper
  err : Option String
  client : σ
  calls : List Request
  log : List Entry
  stdout : List String
  panicked : Bool

/-- The statement `http.Error(w, msg, code)` on the caller's sink `w`,
followed by `return`. -/
def State.httpError {σ : Type} (st : State σ) (msg : String) (code : Int) : State σ :=
  let out := Error st.resp.ResponseWriter msg code
  { st with resp := { st.resp with ResponseWriter := out.1 }, panicked := out.2 }

/-- The statement `w.WriteHeader(code)` on the caller's sink `w`, followed by
`return`. -/
def State.writeHeader {σ : Type} (st : State σ) (code : Int) : State σ :=
  match st.resp.ResponseWriter.WriteHeader code with
  | some w1 => { st with resp := { st.resp with ResponseWriter := w1 } }
  | none => { st with panicked := true }

/-- The inner loop `for _, value := range values { dst.Add(name, value) }`. -/
def addValues (dst : Header) (name : String) (values : List String) : Header :=
  values.foldl (fun d value => d.Add name value) dst

/-- The loop `for name, values := range src { ... dst.Add(name, value) }`. -/
def copyHeader (dst src : Header) : Header :=
  src.foldl (fun d e => addValues d e.1 e.2) dst

/-- Lines 71-74: the upstream host. -/
def upstreamHost (c : Config) : String :=
  let host := "storage.googleapis.com"
  if !c.Proxy.BucketOnPath then c.BucketName ++ "." ++ host else host

/-- Line 75: `fmt.Sprintf("https://%s%s", host, r.URL.RequestURI())`. -/
def upstreamURL (c : Config) (r : InboundRequest) : String :=
  "https://" ++ upstreamHost c ++ r.URL.RequestURI

/-- Line 98: the condition of the index fallback. -/
def fallbackCondition (indexFilename url : String) (gcsResp : Response) : Bool :=
  indexFilename != "" && !HasSuffix url ("/" ++ indexFilename) && gcsResp.StatusCode == 404

/-- Lines 99-102: the URL of the index fallback. -/
def fallbackURL (indexFilename url : String) : String :=
  let url := if !HasSuffix url "/" then url ++ "/" else url
  url ++ indexFilename

/-- Lines 119-125: headers, status and body of `gcsResp` go to `resp`; when
`WriteHeader` panics the body is not copied. -/
def State.passthrough {σ : Type} (st : State σ) (gcsResp : Response) : State σ :=
  let hdr := copyHeader st.resp.ResponseWriter.HeaderMap gcsResp.Header
  let resp := { st.resp with ResponseWriter := { st.resp.ResponseWriter with HeaderMap := hdr } }
  let out := resp.WriteHeader gcsResp.StatusCode
  if out.2 then { st with resp := out.1, panicked := true }
  else { st with resp := { out.1 with ResponseWriter := Copy out.1.ResponseWriter gcsResp.Body } }

/-- Lines 59-125: the body of `ServeHTTP` up to its return or panic. -/
def serve {σ : Type} (h : proxyHandler σ) (amb : Ambient) (s : σ) (w : ResponseWriter)
    (r : InboundRequest) : State σ :=
  let st : State σ :=
    { resp := { code := 0, ResponseWriter := w }, err := none, client := s,
      calls := [], log := [], stdout := [], panicked := false }
  if r.Method ≠ "GET" ∧ r.Method ≠ "HEAD" then
    st.httpError "method not allowed" 405
  else
    let st := { st with stdout := st.stdout ++ ["r.URL.Path " ++ r.URL.Path ++ "\n"] }
    if r.URL.Path = "/" then
      st.writeHeader 200
    else
      let ctx := Context.WithTimeout r.ctx h.config.Proxy.Timeout
      let url := upstreamURL h.config r
      match NewRequest amb.newRequestFailure r.Method url with
      | .error e => ({ st with err := some e }).httpError e 500
      | .ok gcsReq =>
        let gcsReq := gcsReq.WithContext ctx
        let gcsReq := { gcsReq with Header := copyHeader gcsReq.Header r.Header }
        match h.hc.Do st.client gcsReq with
        | (.error e, s1) =>
          ({ st with client := s1, calls := st.calls ++ [gcsReq], err := some e }).httpError e 500
        | (.ok gcsResp, s1) =>
          let st := { st with client := s1, calls := st.calls ++ [gcsReq] }
          let indexFilename := h.config.IndexFilename
          if fallbackCondition indexFilename url gcsResp then
            let url := fallbackURL indexFilename url
            let log := h.logger.emit st.log DebugLevel [] ("File not found; trying " ++ url)
            let st := { st with log := log }
            match NewRequest amb.newRequestFailure r.Method url with
            | .error e => ({ st with err := some e }).httpError e 500
            | .ok gcsReq =>
              match h.hc.Do st.client gcsReq with
              | (.error e, s2) =>
                ({ st with client := s2, calls := st.calls ++ [gcsReq],
                           err := some e }).httpError e 500
              | (.ok gcsResp, s2) =>
                ({ st with client := s2, calls := st.calls ++ [gcsReq] }).passthrough gcsResp
          else
            st.passthrough gcsResp

/-- Lines 38-49: the fields of the end-of-request log record. -/
def logFields {σ : Type} (h : proxyHandler σ) (amb : Ambient) (r : InboundRequest)
    (st : State σ) : Fields :=
  let fields : Fields :=
    [("method", FieldValue.str r.Method),
     ("ellapsed", FieldValue.str amb.ellapsed),
     ("path", FieldValue.str r.URL.RequestURI),
     ("proxyEndpoint", FieldValue.str h.config.Proxy.Endpoint),
     ("response", FieldValue.int st.resp.code)]
  h.config.Proxy.LogHeaders.foldl
    (fun fields header =>
      let value := r.Header.Get header
      if value ≠ "" then fields.set ("ReqHeader/" ++ header) (FieldValue.str value)
      else fields)
    fields

/-- Lines 36-57: the deferred function that logs the request. -/
def logRequest {σ : Type} (h : proxyHandler σ) (amb : Ambient) (r : InboundRequest)
    (st : State σ) : State σ :=
  if st.err ≠ none ∨ h.logger.Level ≥ DebugLevel then
    let fields := logFields h amb r st
    match st.err with
    | some e =>
      let fields := fields.set "error" (FieldValue.str e)
      { st with log := h.logger.emit st.log ErrorLevel fields "failed to handle request" }
    | none =>
      { st with log := h.logger.emit st.log DebugLevel fields "finished handling request" }
  else st

/-- The method `proxyHandler.ServeHTTP`: the body, then the deferred log,
which runs on return and on panic alike. -/
def ServeHTTP {σ : Type} (h : proxyHandler σ) (amb : Ambient) (s : σ) (w : ResponseWriter)
    (r : InboundRequest) : State σ :=
  logRequest h amb r (serve h amb s w r)

/-- The request that lines 77-87 pass to the first `hc.Do`, once
`http.NewRequest` has built it. -/
def primaryRequest (c : Config) (r : InboundRequest) : Request :=
  { Method := r.Method, URL := upstreamURL c r, Header := copyHeader [] r.Header,
    Body := none, ctx := Context.WithTimeout r.ctx c.Proxy.Timeout }

/-- The request that lines 105-110 pass to the second `hc.Do`, once
`http.NewRequest` has built it. -/
def fallbackRequest (c : Config) (r : InboundRequest) : Request :=
  { Method := r.Method, URL := fallbackURL c.IndexFilename (upstreamURL c r), Header := [],
    Body := none, ctx := Context.Background }

/-- The state in which the method gate runs. -/
def State.entry {σ : Type} (s : σ) (w : ResponseWriter) : State σ :=
  { resp := { code := 0, ResponseWriter := w }, err := none, client := s, calls := [],
    log := [], stdout := [], panicked := false }

/-- The state in which the statements after the root shortcut run. -/
def State.start {σ : Type} (s : σ) (w : ResponseWriter) (r : InboundRequest) : State σ :=
  { resp := { code := 0, ResponseWriter := w }, err := none, client := s, calls := [],
    log := [], stdout := ["r.URL.Path " ++ r.URL.Path ++ "\n"], panicked := false }

/-! ## Example data -/

/-- A configuration with bucket `my-bucket` and the given addressing mode and
index filename. -/
def exampleConfig (bucketOnPath : Bool) (indexFilename : String) : Config :=
  { BucketName := "my-bucket", IndexFilename := indexFilename,
    Proxy := { Endpoint := "gcs", BucketOnPath := bucketOnPath, LogHeaders := ["X-Request-Id"],
               Timeout := 10000000000 } }

/-- An inbound request with the given method, path and request URI, carrying
a multi-valued header. -/
def exampleRequest (method path uri : String) : InboundRequest :=
  { Method := method, URL := { Path := path, RequestURI := uri },
    Header := [("Accept", ["text/html", "text/plain"]), ("X-Request-Id", ["7"])],
    ctx := Context.Server 1 }

/-- A client that answers its calls from a script, one answer per call, and
fails once the script is exhausted; its state is the rest of the script. -/
def scriptedClient : Client (List (Except String Response)) :=
  { Do := fun script _ =>
      match script with
      | [] => (.error "no response scripted", [])
      | a :: rest => (a, rest) }

/-- A handler over the scripted client with logger verbosity `level`. -/
def exampleHandler (c : Config) (level : Nat) : proxyHandler (List (Except String Response)) :=
  { config := c, logger := { Level := level }, hc := scriptedClient }

/-- An environment in which `http.NewRequest` never fails. -/
def exampleAmbient : Ambient :=
  { newRequestFailure := fun _ _ => none, ellapsed := "1ms" }

/-- An environment in which `http.NewRequest` refuses a URL that contains an
ASCII control character, as `url.Parse` does. -/
def strictAmbient : Ambient :=
  { newRequestFailure := fun _ url =>
      if url.data.any (fun c => decide (c.toNat < 32) || decide (c.toNat = 127)) then
        some "net/url: invalid control character in URL"
      else none,
    ellapsed := "1ms" }

/-- An upstream 404 response. -/
def notFound : Response :=
  { StatusCode := 404, Header := [("Content-Type", ["application/xml"])],
    Body := bytesOf "NoSuchKey" }

/-- An upstream 200 response with body `hello`. -/
def hello : Response :=
  { StatusCode := 200,
    Header := [("Content-Type", ["text/html"]), ("Cache-Control", ["public", "max-age=60"])],
    Body := bytesOf "hello" }

/-- An upstream response whose status line carries the code 099. -/
def malformedStatus : Response :=
  { StatusCode := 99, Header := [("Content-Type", ["text/plain"])], Body := bytesOf "x" }

/-- An upstream response that a transport hands over with the code 102. -/
def informationalStatus : Response :=
  { StatusCode := 102, Header := [("Content-Type", ["text/plain"])], Body := bytesOf "x" }

/-! ## Lemmas on headers and log fields -/

theorem Header.Values_Add (h : Header) (key value k : String) :
    (h.Add key value).Values k = if key = k then h.Values k ++ [value] else h.Values k := by
  induction h with
  | nil =>
    by_cases hk : key = k <;> simp [Header.Add, Header.Values, hk]
  | cons e rest ih =>
    obtain ⟨k0, vs⟩ := e
    by_cases h0 : k0 = key
    · subst h0
      by_cases hk : k0 = k <;> simp [Header.Add, Header.Values, hk]
    · by_cases hk : k0 = k
      · subst hk
        have : ¬ key = k0 := fun hh => h0 hh.symm
        simp [Header.Add, Header.Values, h0, this]
      · simp [Header.Add, Header.Values, h0, hk, ih]

theorem addValues_Values (values : List String) (dst : Header) (name k : String) :
    (addValues dst name values).Values k =
      if name = k then dst.Values k ++ values else dst.Values k := by
  induction values generalizing dst with
  | nil => simp [addValues]
  | cons v vs ih =>
    have step : addValues dst name (v :: vs) = addValues (dst.Add name v) name vs := by
      simp [addValues]
    rw [step, ih, Header.Values_Add]
    by_cases hk : name = k <;> simp [hk]

theorem Header.Values_absent (h : Header) (k : String) (hk : k ∉ h.map Prod.fst) :
    h.Values k = [] := by
  induction h with
  | nil => rfl
  | cons e rest ih =>
    obtain ⟨k0, vs⟩ := e
    simp only [List.map_cons, List.mem_cons, not_or] at hk
    have h0 : ¬ k0 = k := fun hh => hk.1 hh.symm
    simp [Header.Values, h0, ih hk.2]

theorem copyHeader_Values (src : Header) (dst : Header) (k : String) (hwf : src.WF) :
    (copyHeader dst src).Values k = dst.Values k ++ src.Values k := by
  induction src generalizing dst with
  | nil => simp [copyHeader, Header.Values]
  | cons e rest ih =>
    obtain ⟨k0, vs⟩ := e
    have hnd : k0 ∉ rest.map Prod.fst ∧ Header.WF rest := by
      simpa [Header.WF] using hwf
    have step : copyHeader dst ((k0, vs) :: rest) = copyHeader (addValues dst k0 vs) rest := by
      simp [copyHeader]
    rw [step, ih _ hnd.2, addValues_Values]
    by_cases hk : k0 = k
    · subst hk
      simp [Header.Values, Header.Values_absent rest k0 hnd.1]
    · simp [Header.Values, hk]

theorem Fields.get_set (f : Fields) (key : String) (value : FieldValue) :
    (f.set key value).get key = some value := by
  induction f with
  | nil => simp [Fields.set, Fields.get]
  | cons e rest ih =>
    obtain ⟨k0, v0⟩ := e
    by_cases h0 : k0 = key <;> simp [Fields.set, Fields.get, h0, ih]

/-! ## Lemmas on the handler -/

@[simp] theorem logRequest_resp {σ : Type} (h : proxyHandler σ) (amb : Ambient)
    (r : InboundRequest) (st : State σ) : (logRequest h amb r st).resp = st.resp := by
  unfold logRequest
  split
  · cases st.err <;> rfl
  · rfl

@[simp] theorem logRequest_calls {σ : Type} (h : proxyHandler σ) (amb : Ambient)
    (r : InboundRequest) (st : State σ) : (logRequest h amb r st).calls = st.calls := by
  unfold logRequest
  split
  · cases st.err <;> rfl
  · rfl

@[simp] theorem logRequest_client {σ : Type} (h : proxyHandler σ) (amb : Ambient)
    (r : InboundRequest) (st : State σ) : (logRequest h amb r st).client = st.client := by
  unfold logRequest
  split
  · cases st.err <;> rfl
  · rfl

@[simp] theorem logRequest_err {σ : Type} (h : proxyHandler σ) (amb : Ambient)
    (r : InboundRequest) (st : State σ) : (logRequest h amb r st).err = st.err := by
  unfold logRequest
  split
  · cases st.err <;> rfl
  · rfl

@[simp] theorem httpError_calls {σ : Type} (st : State σ) (msg : String) (code : Int) :
    (st.httpError msg code).calls = st.calls := rfl

@[simp] theorem httpError_client {σ : Type} (st : State σ) (msg : String) (code : Int) :
    (st.httpError msg code).client = st.client := rfl

@[simp] theorem httpError_err {σ : Type} (st : State σ) (msg : String) (code : Int) :
    (st.httpError msg code).err = st.err := rfl

@[simp] theorem httpError_log {σ : Type} (st : State σ) (msg : String) (code : Int) :
    (st.httpError msg code).log = st.log := rfl

@[simp] theorem writeHeader_calls {σ : Type} (st : State σ) (code : Int) :
    (st.writeHeader code).calls = st.calls := by
  unfold State.writeHeader
  split <;> rfl

@[simp] theorem writeHeader_client {σ : Type} (st : State σ) (code : Int) :
    (st.writeHeader code).client = st.client := by
  unfold State.writeHeader
  split <;> rfl

@[simp] theorem passthrough_calls {σ : Type} (st : State σ) (gcsResp : Response) :
    (st.passthrough gcsResp).calls = st.calls := by
  simp only [State.passthrough]
  split <;> rfl

@[simp] theorem passthrough_client {σ : Type} (st : State σ) (gcsResp : Response) :
    (st.passthrough gcsResp).client = st.client := by
  simp only [State.passthrough]
  split <;> rfl

@[simp] theorem passthrough_err {σ : Type} (st : State σ) (gcsResp : Response) :
    (st.passthrough gcsResp).err = st.err := by
  simp only [State.passthrough]
  split <;> rfl

@[simp] theorem passthrough_log {σ : Type} (st : State σ) (gcsResp : Response) :
    (st.passthrough gcsResp).log = st.log := by
  simp only [State.passthrough]
  split <;> rfl

theorem serve_rejected {σ : Type} (h : proxyHandler σ) (amb : Ambient) (s : σ)
    (w : ResponseWriter) (r : InboundRequest)
    (hm : r.Method ≠ "GET" ∧ r.Method ≠ "HEAD") :
    serve h amb s w r = (State.entry s w).httpError "method not allowed" 405 := by
  unfold serve
  simp [hm, State.entry]

theorem serve_root {σ : Type} (h : proxyHandler σ) (amb : Ambient) (s : σ)
    (w : ResponseWriter) (r : InboundRequest)
    (hm : r.Method = "GET" ∨ r.Method = "HEAD") (hp : r.URL.Path = "/") :
    serve h amb s w r = (State.start s w r).writeHeader 200 := by
  have hm2 : ¬ (r.Method ≠ "GET" ∧ r.Method ≠ "HEAD") := by
    rcases hm with hh | hh <;> simp [hh]
  unfold serve
  simp [hm2, hp, State.start]

theorem serve_construction_failed {σ : Type} (h : proxyHandler σ) (amb : Ambient) (s : σ)
    (w : ResponseWriter) (r : InboundRequest) (e : String)
    (hm : r.Method = "GET" ∨ r.Method = "HEAD") (hp : r.URL.Path ≠ "/")
    (hnr : amb.newRequestFailure r.Method (upstreamURL h.config r) = some e) :
    serve h amb s w r =
      ({ State.start s w r with err := some e }).httpError e 500 := by
  have hm2 : ¬ (r.Method ≠ "GET" ∧ r.Method ≠ "HEAD") := by
    rcases hm with hh | hh <;> simp [hh]
  unfold serve
  simp [hm2, hp, State.start, NewRequest, hnr]

theorem serve_primary_failed {σ : Type} (h : proxyHandler σ) (amb : Ambient) (s s1 : σ)
    (w : ResponseWriter) (r : InboundRequest) (e : String)
    (hm : r.Method = "GET" ∨ r.Method = "HEAD") (hp : r.URL.Path ≠ "/")
    (hnr : amb.newRequestFailure r.Method (upstreamURL h.config r) = none)
    (hdo : h.hc.Do s (primaryRequest h.config r) = (.error e, s1)) :
    serve h amb s w r =
      ({ State.start s w r with
          client := s1, calls := [primaryRequest h.config r], err := some e }).httpError e 500 := by
  have hm2 : ¬ (r.Method ≠ "GET" ∧ r.Method ≠ "HEAD") := by
    rcases hm with hh | hh <;> simp [hh]
  unfold primaryRequest at hdo
  unfold serve
  simp [hm2, hp, State.start, NewRequest, hnr, Request.WithContext, hdo, primaryRequest]

theorem serve_no_fallback {σ : Type} (h : proxyHandler σ) (amb : Ambient) (s s1 : σ)
    (w : ResponseWriter) (r : InboundRequest) (resp1 : Response)
    (hm : r.Method = "GET" ∨ r.Method = "HEAD") (hp : r.URL.Path ≠ "/")
    (hnr : amb.newRequestFailure r.Method (upstreamURL h.config r) = none)
    (hdo : h.hc.Do s (primaryRequest h.config r) = (.ok resp1, s1))
    (hfb : fallbackCondition h.config.IndexFilename (upstreamURL h.config r) resp1 = false) :
    serve h amb s w r =
      ({ State.start s w r with
          client := s1, calls := [primaryRequest h.config r] }).passthrough resp1 := by
  have hm2 : ¬ (r.Method ≠ "GET" ∧ r.Method ≠ "HEAD") := by
    rcases hm with hh | hh <;> simp [hh]
  unfold primaryRequest at hdo
  unfold serve
  simp [hm2, hp, State.start, NewRequest, hnr, Request.WithContext, hdo, primaryRequest, hfb]

theorem serve_fallback_construction_failed {σ : Type} (h : proxyHandler σ) (amb : Ambient)
    (s s1 : σ) (w : ResponseWriter) (r : InboundRequest) (resp1 : Response) (e : String)
    (hm : r.Method = "GET" ∨ r.Method = "HEAD") (hp : r.URL.Path ≠ "/")
    (hnr : amb.newRequestFailure r.Method (upstreamURL h.config r) = none)
    (hdo : h.hc.Do s (primaryRequest h.config r) = (.ok resp1, s1))
    (hfb : fallbackCondition h.config.IndexFilename (upstreamURL h.config r) resp1 = true)
    (hnr2 : amb.newRequestFailure r.Method
      (fallbackURL h.config.IndexFilename (upstreamURL h.config r)) = some e) :
    serve h amb s w r =
      ({ State.start s w r with
          client := s1, calls := [primaryRequest h.config r], err := some e,
          log := h.logger.emit [] DebugLevel [] ("File not found; trying " ++
            fallbackURL h.config.IndexFilename (upstreamURL h.config r)) }).httpError e 500 := by
  have hm2 : ¬ (r.Method ≠ "GET" ∧ r.Method ≠ "HEAD") := by
    rcases hm with hh | hh <;> simp [hh]
  unfold primaryRequest at hdo
  unfold serve
  simp [hm2, hp, State.start, NewRequest, hnr, Request.WithContext, hdo, primaryRequest, hfb,
    hnr2]

theorem serve_fallback_failed {σ : Type} (h : proxyHandler σ) (amb : Ambient)
    (s s1 s2 : σ) (w : ResponseWriter) (r : InboundRequest) (resp1 : Response) (e : String)
    (hm : r.Method = "GET" ∨ r.Method = "HEAD") (hp : r.URL.Path ≠ "/")
    (hnr : amb.newRequestFailure r.Method (upstreamURL h.config r) = none)
    (hdo : h.hc.Do s (primaryRequest h.config r) = (.ok resp1, s1))
    (hfb : fallbackCondition h.config.IndexFilename (upstreamURL h.config r) resp1 = true)
    (hnr2 : amb.newRequestFailure r.Method
      (fallbackURL h.config.IndexFilename (upstreamURL h.config r)) = none)
    (hdo2 : h.hc.Do s1 (fallbackRequest h.config r) = (.error e, s2)) :
    serve h amb s w r =
      ({ State.start s w r with
          client := s2, calls := [primaryRequest h.config r, fallbackRequest h.config r],
          err := some e,
          log := h.logger.emit [] DebugLevel [] ("File not found; trying " ++
            fallbackURL h.config.IndexFilename (upstreamURL h.config r)) }).httpError e 500 := by
  have hm2 : ¬ (r.Method ≠ "GET" ∧ r.Method ≠ "HEAD") := by
    rcases hm with hh | hh <;> simp [hh]
  unfold primaryRequest at hdo
  unfold fallbackRequest at hdo2
  unfold serve
  simp [hm2, hp, State.start, NewRequest, hnr, Request.WithContext, hdo, primaryRequest, hfb,
    hnr2, hdo2, fallbackRequest]

theorem serve_fallback_ok {σ : Type} (h : proxyHandler σ) (amb : Ambient)
    (s s1 s2 : σ) (w : ResponseWriter) (r : InboundRequest) (resp1 resp2 : Response)
    (hm : r.Method = "GET" ∨ r.Method = "HEAD") (hp : r.URL.Path ≠ "/")
    (hnr : amb.newRequestFailure r.Method (upstreamURL h.config r) = none)
    (hdo : h.hc.Do s (primaryRequest h.config r) = (.ok resp1, s1))
    (hfb : fallbackCondition h.config.IndexFilename (upstreamURL h.config r) resp1 = true)
    (hnr2 : amb.newRequestFailure r.Method
      (fallbackURL h.config.IndexFilename (upstreamURL h.config r)) = none)
    (hdo2 : h.hc.Do s1 (fallbackRequest h.config r) = (.ok resp2, s2)) :
    serve h amb s w r =
      ({ State.start s w r with
          client := s2, calls := [primaryRequest h.config r, fallbackRequest h.config r],
          log := h.logger.emit [] DebugLevel [] ("File not found; trying " ++
            fallbackURL h.config.IndexFilename (upstreamURL h.config r)) }).passthrough resp2 := by
  have hm2 : ¬ (r.Method ≠ "GET" ∧ r.Method ≠ "HEAD") := by
    rcases hm with hh | hh <;> simp [hh]
  unfold primaryRequest at hdo
  unfold fallbackRequest at hdo2
  unfold serve
  simp [hm2, hp, State.start, NewRequest, hnr, Request.WithContext, hdo, primaryRequest, hfb,
    hnr2, hdo2, fallbackRequest]

/-- Whatever happens, the requests handed to the client start with the
primary request; nothing is handed over before it. -/
theorem serve_calls_head {σ : Type} (h : proxyHandler σ) (amb : Ambient) (s : σ)
    (w : ResponseWriter) (r : InboundRequest) (req : Request)
    (hc : (serve h amb s w r).calls.head? = some req) :
    (r.Method = "GET" ∨ r.Method = "HEAD") ∧ r.URL.Path ≠ "/" ∧
      amb.newRequestFailure r.Method (upstreamURL h.config r) = none ∧
      req = primaryRequest h.config r := by
  by_cases hm : r.Method ≠ "GET" ∧ r.Method ≠ "HEAD"
  · rw [serve_rejected h amb s w r hm] at hc
    simp [State.entry] at hc
  · have hm1 : r.Method = "GET" ∨ r.Method = "HEAD" := by
      by_cases hg : r.Method = "GET"
      · exact Or.inl hg
      · by_cases hh : r.Method = "HEAD"
        · exact Or.inr hh
        · exact absurd ⟨hg, hh⟩ hm
    by_cases hp : r.URL.Path = "/"
    · rw [serve_root h amb s w r hm1 hp] at hc
      simp [State.start] at hc
    · cases hnr : amb.newRequestFailure r.Method (upstreamURL h.config r) with
      | some e =>
        rw [serve_construction_failed h amb s w r e hm1 hp hnr] at hc
        simp [State.start] at hc
      | none =>
        refine ⟨hm1, hp, rfl, ?_⟩
        rcases hdo : h.hc.Do s (primaryRequest h.config r) with ⟨res, s1⟩
        cases res with
        | error e =>
          rw [serve_primary_failed h amb s s1 w r e hm1 hp hnr hdo] at hc
          simp at hc
          exact hc.symm
        | ok resp1 =>
          cases hfb : fallbackCondition h.config.IndexFilename (upstreamURL h.config r) resp1 with
          | false =>
            rw [serve_no_fallback h amb s s1 w r resp1 hm1 hp hnr hdo hfb] at hc
            simp at hc
            exact hc.symm
          | true =>
            cases hnr2 : amb.newRequestFailure r.Method
                (fallbackURL h.config.IndexFilename (upstreamURL h.config r)) with
            | some e =>
              rw [serve_fallback_construction_failed h amb s s1 w r resp1 e hm1 hp hnr hdo hfb
                hnr2] at hc
              simp at hc
              exact hc.symm
            | none =>
              rcases hdo2 : h.hc.Do s1 (fallbackRequest h.config r) with ⟨res2, s2⟩
              cases res2 with
              | error e =>
                rw [serve_fallback_failed h amb s s1 s2 w r resp1 e hm1 hp hnr hdo hfb hnr2
                  hdo2] at hc
                simp at hc
                exact hc.symm
              | ok resp2 =>
                rw [serve_fallback_ok h amb s s1 s2 w r resp1 resp2 hm1 hp hnr hdo hfb hnr2
                  hdo2] at hc
                simp at hc
                exact hc.symm

/-- The requests handed to the client and the final client state, once the
primary request has been built and the client has answered it. -/
theorem serve_calls {σ : Type} (h : proxyHandler σ) (amb : Ambient) (s s1 : σ)
    (w : ResponseWriter) (r : InboundRequest) (res : Except String Response)
    (hm : r.Method = "GET" ∨ r.Method = "HEAD") (hp : r.URL.Path ≠ "/")
    (hnr : amb.newRequestFailure r.Method (upstreamURL h.config r) = none)
    (hdo : h.hc.Do s (primaryRequest h.config r) = (res, s1)) :
    ((serve h amb s w r).calls = [primaryRequest h.config r] ∧
      (serve h amb s w r).client = s1 ∧
      ¬ (∃ resp1, res = .ok resp1 ∧
          fallbackCondition h.config.IndexFilename (upstreamURL h.config r) resp1 = true ∧
          amb.newRequestFailure r.Method
            (fallbackURL h.config.IndexFilename (upstreamURL h.config r)) = none)) ∨
    ((serve h amb s w r).calls = [primaryRequest h.config r, fallbackRequest h.config r] ∧
      (serve h amb s w r).client = (h.hc.Do s1 (fallbackRequest h.config r)).2 ∧
      (∃ resp1, res = .ok resp1 ∧
          fallbackCondition h.config.IndexFilename (upstreamURL h.config r) resp1 = true ∧
          amb.newRequestFailure r.Method
            (fallbackURL h.config.IndexFilename (upstreamURL h.config r)) = none)) := by
  cases res with
  | error e =>
    left
    rw [serve_primary_failed h amb s s1 w r e hm hp hnr hdo]
    simp
  | ok resp1 =>
    cases hfb : fallbackCondition h.config.IndexFilename (upstreamURL h.config r) resp1 with
    | false =>
      left
      rw [serve_no_fallback h amb s s1 w r resp1 hm hp hnr hdo hfb]
      simp [hfb]
    | true =>
      cases hnr2 : amb.newRequestFailure r.Method
          (fallbackURL h.config.IndexFilename (upstreamURL h.config r)) with
      | some e =>
        left
        rw [serve_fallback_construction_failed h amb s s1 w r resp1 e hm hp hnr hdo hfb hnr2]
        simp
      | none =>
        right
        rcases hdo2 : h.hc.Do s1 (fallbackRequest h.config r) with ⟨res2, s2⟩
        cases res2 with
        | error e =>
          rw [serve_fallback_failed h amb s s1 s2 w r resp1 e hm hp hnr hdo hfb hnr2 hdo2]
          simp [hfb]
        | ok resp2 =>
          rw [serve_fallback_ok h amb s s1 s2 w r resp1 resp2 hm hp hnr hdo hfb hnr2 hdo2]
          simp [hfb]

/-- Passing a response through to a sink to which nothing was written, when
the status is 101 or lies in 200..999. -/
theorem passthrough_fresh {σ : Type} (st : State σ) (gcsResp : Response)
    (hw : st.resp.ResponseWriter = ResponseWriter.fresh)
    (hcode : gcsResp.StatusCode = 101 ∨
      (200 ≤ gcsResp.StatusCode ∧ gcsResp.StatusCode ≤ 999)) :
    (st.passthrough gcsResp).resp =
      { code := gcsResp.StatusCode,
        ResponseWriter :=
          { HeaderMap := copyHeader [] gcsResp.Header, wroteHeader := true,
            Code := gcsResp.StatusCode, snapHeader := copyHeader [] gcsResp.Header,
            Body := gcsResp.Body, informational := [] } } ∧
    (st.passthrough gcsResp).panicked = st.panicked := by
  have h1 : checkWriteHeaderCode gcsResp.StatusCode = true := by
    simp only [checkWriteHeaderCode, Bool.and_eq_true, decide_eq_true_eq]
    omega
  have h2 : (decide (gcsResp.StatusCode ≤ 199) && gcsResp.StatusCode != 101) = false := by
    rcases hcode with h101 | h200
    · simp [h101]
    · have : ¬ gcsResp.StatusCode ≤ 199 := by omega
      simp [this]
  cases hb : gcsResp.Body with
  | nil =>
    simp [State.passthrough, hw, codeWrapper.WriteHeader, ResponseWriter.WriteHeader,
      ResponseWriter.sendStatus, Copy, ResponseWriter.fresh, h1, h2, hb]
  | cons b bs =>
    simp [State.passthrough, hw, codeWrapper.WriteHeader, ResponseWriter.WriteHeader,
      ResponseWriter.sendStatus, ResponseWriter.Write, Copy, ResponseWriter.fresh, h1, h2, hb]

/-- The statement `http.Error(w, msg, code)` on a sink to which nothing was
written, for a status in 200..999. -/
theorem Error_fresh (msg : String) (code : Int) (hcode : 200 ≤ code ∧ code ≤ 999) :
    Error ResponseWriter.fresh msg code =
      ({ HeaderMap := [("Content-Type", ["text/plain; charset=utf-8"]),
                       ("X-Content-Type-Options", ["nosniff"])],
         wroteHeader := true, Code := code,
         snapHeader := [("Content-Type", ["text/plain; charset=utf-8"]),
                        ("X-Content-Type-Options", ["nosniff"])],
         Body := bytesOf (msg ++ "\n"), informational := [] }, false) := by
  have h1 : checkWriteHeaderCode code = true := by
    simp only [checkWriteHeaderCode, Bool.and_eq_true, decide_eq_true_eq]
    omega
  have h2 : (decide (code ≤ 199) && code != 101) = false := by
    have : ¬ code ≤ 199 := by omega
    simp [this]
  simp [Error, ResponseWriter.WriteHeader, ResponseWriter.sendStatus, ResponseWriter.Write,
    ResponseWriter.fresh, Header.Set, Header.Del, h1, h2]

/-! ## The method gate and the root shortcut -/

/-- Claim C5: a request whose method is neither GET nor HEAD is answered with
status 405 and no request is handed to the upstream client (whose state is
left untouched), whatever the path, the headers, the configuration and the
client. -/
theorem method_gate_rejects_with_405 {σ : Type} (h : proxyHandler σ) (amb : Ambient) (s : σ)
    (r : InboundRequest) (hm : r.Method ≠ "GET" ∧ r.Method ≠ "HEAD") :
    (ServeHTTP h amb s ResponseWriter.fresh r).resp.ResponseWriter.wroteHeader = true ∧
    (ServeHTTP h amb s ResponseWriter.fresh r).resp.ResponseWriter.Code = 405 ∧
    (ServeHTTP h amb s ResponseWriter.fresh r).calls = [] ∧
    (ServeHTTP h amb s ResponseWriter.fresh r).client = s := by
  simp only [ServeHTTP, logRequest_resp, logRequest_calls, logRequest_client,
    serve_rejected h amb s ResponseWriter.fresh r hm]
  simp [State.httpError, State.entry, Error_fresh "method not allowed" 405 (by decide)]

/-- Claim C5, at a POST request for `/a/b.txt` through a client that would
answer 200. -/
theorem method_gate_rejects_with_405_witness :
    ((exampleRequest "POST" "/a/b.txt" "/a/b.txt").Method ≠ "GET" ∧
      (exampleRequest "POST" "/a/b.txt" "/a/b.txt").Method ≠ "HEAD") ∧
    (ServeHTTP (exampleHandler (exampleConfig false "index.html") 4) exampleAmbient [.ok hello]
      ResponseWriter.fresh (exampleRequest "POST" "/a/b.txt" "/a/b.txt")).resp.ResponseWriter.Code
      = 405 :=
  ⟨by decide,
   (method_gate_rejects_with_405 (exampleHandler (exampleConfig false "index.html") 4)
      exampleAmbient [.ok hello] (exampleRequest "POST" "/a/b.txt" "/a/b.txt")
      (by decide)).2.1⟩

/-- Claim C7 as stated fails: a POST request whose path is exactly `/` is
answered with status 405 and a non-empty body, not with an empty 200. -/
theorem root_shortcut_post_counterexample :
    (exampleRequest "POST" "/" "/").URL.Path = "/" ∧
    (ServeHTTP (exampleHandler (exampleConfig false "") 4) exampleAmbient [.ok hello]
      ResponseWriter.fresh (exampleRequest "POST" "/" "/")).resp.ResponseWriter.Code = 405 ∧
    ¬ ((ServeHTTP (exampleHandler (exampleConfig false "") 4) exampleAmbient [.ok hello]
        ResponseWriter.fresh (exampleRequest "POST" "/" "/")).resp.ResponseWriter.Code = 200 ∧
       (ServeHTTP (exampleHandler (exampleConfig false "") 4) exampleAmbient [.ok hello]
        ResponseWriter.fresh (exampleRequest "POST" "/" "/")).resp.ResponseWriter.Body = []) := by
  decide

/-- Claim C7, amended: a GET or HEAD request whose path is exactly `/` is
answered with status 200 and an empty body, and no request is handed to the
upstream client, whatever the client would do. -/
theorem root_shortcut_get_head {σ : Type} (h : proxyHandler σ) (amb : Ambient) (s : σ)
    (r : InboundRequest) (hm : r.Method = "GET" ∨ r.Method = "HEAD")
    (hp : r.URL.Path = "/") :
    (ServeHTTP h amb s ResponseWriter.fresh r).resp.ResponseWriter.wroteHeader = true ∧
    (ServeHTTP h amb s ResponseWriter.fresh r).resp.ResponseWriter.Code = 200 ∧
    (ServeHTTP h amb s ResponseWriter.fresh r).resp.ResponseWriter.Body = [] ∧
    (ServeHTTP h amb s ResponseWriter.fresh r).calls = [] ∧
    (ServeHTTP h amb s ResponseWriter.fresh r).client = s := by
  simp only [ServeHTTP, logRequest_resp, logRequest_calls, logRequest_client,
    serve_root h amb s ResponseWriter.fresh r hm hp]
  simp [State.writeHeader, State.start, ResponseWriter.WriteHeader, ResponseWriter.sendStatus,
    ResponseWriter.fresh, checkWriteHeaderCode]

/-- Claim C7, amended, at a HEAD request for `/` through a client that fails
every call. -/
theorem root_shortcut_get_head_witness :
    ((exampleRequest "HEAD" "/" "/?probe=1").Method = "GET" ∨
      (exampleRequest "HEAD" "/" "/?probe=1").Method = "HEAD") ∧
    (exampleRequest "HEAD" "/" "/?probe=1").URL.Path = "/" ∧
    (ServeHTTP (exampleHandler (exampleConfig false "index.html") 4) exampleAmbient []
      ResponseWriter.fresh (exampleRequest "HEAD" "/" "/?probe=1")).resp.ResponseWriter.Code
      = 200 :=
  ⟨by decide, by decide,
   (root_shortcut_get_head (exampleHandler (exampleConfig false "index.html") 4)
      exampleAmbient [] (exampleRequest "HEAD" "/" "/?probe=1")
      (by decide) (by decide)).2.1⟩

/-! ## The upstream URL -/

/-- Claim C2: for every bucket name, addressing mode and inbound request URI
the primary upstream URL is `https://` followed by the host and by the
request URI as received, the host being `storage.googleapis.com` in
bucket-on-path mode and the bucket name followed by `.storage.googleapis.com`
otherwise; this is the URL of the first request the handler hands to the
client; and bucket `my-bucket` with `/a/b.txt` gives the two URLs of the
specification. -/
theorem primary_upstream_url {σ : Type} (h : proxyHandler σ) (amb : Ambient) (s : σ)
    (r : InboundRequest) :
    upstreamURL h.config r =
      "https://" ++
        (if h.config.Proxy.BucketOnPath = true then "storage.googleapis.com"
         else h.config.BucketName ++ ".storage.googleapis.com") ++
        r.URL.RequestURI ∧
    (∀ req : Request, (ServeHTTP h amb s ResponseWriter.fresh r).calls.head? = some req →
      req.URL = "https://" ++
        (if h.config.Proxy.BucketOnPath = true then "storage.googleapis.com"
         else h.config.BucketName ++ ".storage.googleapis.com") ++
        r.URL.RequestURI) ∧
    upstreamURL (exampleConfig false "") (exampleRequest "GET" "/a/b.txt" "/a/b.txt") =
      "https://my-bucket.storage.googleapis.com/a/b.txt" ∧
    upstreamURL (exampleConfig true "") (exampleRequest "GET" "/a/b.txt" "/a/b.txt") =
      "https://storage.googleapis.com/a/b.txt" := by
  have hurl : upstreamURL h.config r =
      "https://" ++
        (if h.config.Proxy.BucketOnPath = true then "storage.googleapis.com"
         else h.config.BucketName ++ ".storage.googleapis.com") ++
        r.URL.RequestURI := by
    unfold upstreamURL upstreamHost
    cases h.config.Proxy.BucketOnPath <;> simp [String.append_assoc]
  refine ⟨hurl, ?_, by decide, by decide⟩
  intro req hreq
  have hc : (serve h amb s ResponseWriter.fresh r).calls.head? = some req := by
    simpa [ServeHTTP] using hreq
  have hreq1 := (serve_calls_head h amb s ResponseWriter.fresh r req hc).2.2.2
  rw [hreq1, ← hurl]
  rfl

/-- Claim C2, at a GET request for `/a/b.txt?v=1` in subdomain mode: the
handler hands the client a first request, and its URL is the inbound URI
behind the bucket host. -/
theorem primary_upstream_url_witness :
    (ServeHTTP (exampleHandler (exampleConfig false "") 4) exampleAmbient [.ok hello]
      ResponseWriter.fresh (exampleRequest "GET" "/a/b.txt" "/a/b.txt?v=1")).calls.head? =
      some (primaryRequest (exampleConfig false "")
        (exampleRequest "GET" "/a/b.txt" "/a/b.txt?v=1")) ∧
    (primaryRequest (exampleConfig false "")
        (exampleRequest "GET" "/a/b.txt" "/a/b.txt?v=1")).URL =
      "https://my-bucket.storage.googleapis.com/a/b.txt?v=1" :=
  ⟨by decide,
   (primary_upstream_url (exampleHandler (exampleConfig false "") 4) exampleAmbient
      [.ok hello] (exampleRequest "GET" "/a/b.txt" "/a/b.txt?v=1")).2.1 _ (by decide)⟩

/-! ## The outbound requests -/

/-- Claim C8: when the handler hands a primary request to the client, that
request has the inbound method, no body, and exactly the inbound headers:
under every name the same values in the same order; and a fallback request,
when one is handed over, has the same method and no body but no header at
all. -/
theorem outbound_request_headers {σ : Type} (h : proxyHandler σ) (amb : Ambient) (s : σ)
    (r : InboundRequest) (req1 : Request) (hwf : r.Header.WF)
    (hc1 : (ServeHTTP h amb s ResponseWriter.fresh r).calls.head? = some req1) :
    (req1.Method = r.Method ∧ req1.Body = none ∧
      ∀ name : String, req1.Header.Values name = r.Header.Values name) ∧
    (∀ req2 : Request, (ServeHTTP h amb s ResponseWriter.fresh r).calls[1]? = some req2 →
      req2.Method = r.Method ∧ req2.Body = none ∧ req2.Header = [] ∧
      ∀ name : String, req2.Header.Values name = []) := by
  have hc : (serve h amb s ResponseWriter.fresh r).calls.head? = some req1 := by
    simpa [ServeHTTP] using hc1
  obtain ⟨hm, hp, hnr, hreq⟩ := serve_calls_head h amb s ResponseWriter.fresh r req1 hc
  subst hreq
  refine ⟨⟨rfl, rfl, ?_⟩, ?_⟩
  · intro name
    simp [primaryRequest, copyHeader_Values r.Header [] name hwf, Header.Values]
  · intro req2 hreq2
    have hreq2 : (serve h amb s ResponseWriter.fresh r).calls[1]? = some req2 := by
      simpa [ServeHTTP] using hreq2
    rcases hdo : h.hc.Do s (primaryRequest h.config r) with ⟨res, s1⟩
    rcases serve_calls h amb s s1 ResponseWriter.fresh r res hm hp hnr hdo with hcase | hcase
    · rw [hcase.1] at hreq2
      simp at hreq2
    · rw [hcase.1] at hreq2
      simp at hreq2
      subst hreq2
      simp [fallbackRequest, Header.Values]

/-- Claim C8, at a GET request for `/dir` with a two-valued `Accept` header
whose primary call is answered 404 and whose fallback call is answered 200:
both requests exist, the primary one repeats the `Accept` values in order and
the fallback one has no header. -/
theorem outbound_request_headers_witness :
    (exampleRequest "GET" "/dir" "/dir").Header.WF ∧
    (ServeHTTP (exampleHandler (exampleConfig false "index.html") 4) exampleAmbient
      [.ok notFound, .ok hello] ResponseWriter.fresh
      (exampleRequest "GET" "/dir" "/dir")).calls.head? =
      some (primaryRequest (exampleConfig false "index.html")
        (exampleRequest "GET" "/dir" "/dir")) ∧
    (primaryRequest (exampleConfig false "index.html")
      (exampleRequest "GET" "/dir" "/dir")).Header.Values "Accept" =
      ["text/html", "text/plain"] ∧
    (ServeHTTP (exampleHandler (exampleConfig false "index.html") 4) exampleAmbient
      [.ok notFound, .ok hello] ResponseWriter.fresh
      (exampleRequest "GET" "/dir" "/dir")).calls[1]? =
      some (fallbackRequest (exampleConfig false "index.html")
        (exampleRequest "GET" "/dir" "/dir")) ∧
    (fallbackRequest (exampleConfig false "index.html")
      (exampleRequest "GET" "/dir" "/dir")).Header = [] :=
  ⟨by decide, by decide,
   ((outbound_request_headers (exampleHandler (exampleConfig false "index.html") 4)
      exampleAmbient [.ok notFound, .ok hello] (exampleRequest "GET" "/dir" "/dir")
      (primaryRequest (exampleConfig false "index.html") (exampleRequest "GET" "/dir" "/dir"))
      (by decide) (by decide)).1.2.2 "Accept").trans (by decide),
   by decide,
   ((outbound_request_headers (exampleHandler (exampleConfig false "index.html") 4)
      exampleAmbient [.ok notFound, .ok hello] (exampleRequest "GET" "/dir" "/dir")
      (primaryRequest (exampleConfig false "index.html") (exampleRequest "GET" "/dir" "/dir"))
      (by decide) (by decide)).2 _ (by decide)).2.2.1⟩

/-! ## Response passthrough -/

/-- Claim C1 as stated fails: when the client answers a GET request for
`/a/b.txt` with status 99, `WriteHeader` panics on line 124 and the caller is
sent no status and no body byte; and when it answers with status 102, the
sink sends 102 as an informational response and the final status, sent with
the body, is 200. -/
theorem passthrough_status_counterexample :
    (exampleRequest "GET" "/a/b.txt" "/a/b.txt").Method = "GET" ∧
    (exampleRequest "GET" "/a/b.txt" "/a/b.txt").URL.Path ≠ "/" ∧
    (scriptedClient.Do [.ok malformedStatus]
      (primaryRequest (exampleConfig false "") (exampleRequest "GET" "/a/b.txt" "/a/b.txt"))
      = (.ok malformedStatus, []) ∧
     fallbackCondition "" (upstreamURL (exampleConfig false "")
       (exampleRequest "GET" "/a/b.txt" "/a/b.txt")) malformedStatus = false ∧
     (ServeHTTP (exampleHandler (exampleConfig false "") 4) exampleAmbient [.ok malformedStatus]
       ResponseWriter.fresh (exampleRequest "GET" "/a/b.txt" "/a/b.txt")).panicked = true ∧
     (ServeHTTP (exampleHandler (exampleConfig false "") 4) exampleAmbient [.ok malformedStatus]
       ResponseWriter.fresh
       (exampleRequest "GET" "/a/b.txt" "/a/b.txt")).resp.ResponseWriter.wroteHeader = false ∧
     (ServeHTTP (exampleHandler (exampleConfig false "") 4) exampleAmbient [.ok malformedStatus]
       ResponseWriter.fresh
       (exampleRequest "GET" "/a/b.txt" "/a/b.txt")).resp.ResponseWriter.Body = [] ∧
     (ServeHTTP (exampleHandler (exampleConfig false "") 4) exampleAmbient [.ok malformedStatus]
       ResponseWriter.fresh
       (exampleRequest "GET" "/a/b.txt" "/a/b.txt")).resp.ResponseWriter.Code
       ≠ malformedStatus.StatusCode) ∧
    (scriptedClient.Do [.ok informationalStatus]
      (primaryRequest (exampleConfig false "") (exampleRequest "GET" "/a/b.txt" "/a/b.txt"))
      = (.ok informationalStatus, []) ∧
     (ServeHTTP (exampleHandler (exampleConfig false "") 4) exampleAmbient
       [.ok informationalStatus] ResponseWriter.fresh
       (exampleRequest "GET" "/a/b.txt" "/a/b.txt")).resp.ResponseWriter.informational = [102] ∧
     (ServeHTTP (exampleHandler (exampleConfig false "") 4) exampleAmbient
       [.ok informationalStatus] ResponseWriter.fresh
       (exampleRequest "GET" "/a/b.txt" "/a/b.txt")).resp.ResponseWriter.Code = 200 ∧
     (ServeHTTP (exampleHandler (exampleConfig false "") 4) exampleAmbient
       [.ok informationalStatus] ResponseWriter.fresh
       (exampleRequest "GET" "/a/b.txt" "/a/b.txt")).resp.ResponseWriter.Code
       ≠ informationalStatus.StatusCode) :=
  ⟨by decide, by decide, ⟨rfl, by decide, by decide, by decide, by decide, by decide⟩,
   ⟨rfl, by decide, by decide, by decide⟩⟩

/-- Claim C1, amended: for a GET or HEAD request with a path other than `/`
whose upstream calls succeed (the client answers the primary request `req1`
with `resp1` and, when the index fallback is triggered, the fallback request
`req2` with `resp2`) and whose chosen upstream response (the fallback
response if the fallback was triggered, the primary response otherwise) has a
status that is 101 or lies in 200..999, the handler does not panic and the
response written to the caller has the status, the headers (under every name
the same values) and the body of the chosen response; in particular a
primary 404 without fallback reaches the caller as 404. -/
theorem passthrough_mirrors_chosen_response {σ : Type} (h : proxyHandler σ) (amb : Ambient)
    (s s1 s2 : σ) (r : InboundRequest) (req1 req2 : Request) (resp1 resp2 : Response)
    (hm : r.Method = "GET" ∨ r.Method = "HEAD") (hp : r.URL.Path ≠ "/")
    (hc1 : (ServeHTTP h amb s ResponseWriter.fresh r).calls.head? = some req1)
    (hdo1 : h.hc.Do s req1 = (.ok resp1, s1))
    (hfb : fallbackCondition h.config.IndexFilename req1.URL resp1 = true →
      (ServeHTTP h amb s ResponseWriter.fresh r).calls[1]? = some req2 ∧
      h.hc.Do s1 req2 = (.ok resp2, s2))
    (hcode :
      (if fallbackCondition h.config.IndexFilename req1.URL resp1 = true then resp2
       else resp1).StatusCode = 101 ∨
      (200 ≤ (if fallbackCondition h.config.IndexFilename req1.URL resp1 = true then resp2
              else resp1).StatusCode ∧
       (if fallbackCondition h.config.IndexFilename req1.URL resp1 = true then resp2
        else resp1).StatusCode ≤ 999))
    (hwf1 : resp1.Header.WF) (hwf2 : resp2.Header.WF) :
    (ServeHTTP h amb s ResponseWriter.fresh r).panicked = false ∧
    (ServeHTTP h amb s ResponseWriter.fresh r).resp.ResponseWriter.wroteHeader = true ∧
    (ServeHTTP h amb s ResponseWriter.fresh r).resp.ResponseWriter.Code =
      (if fallbackCondition h.config.IndexFilename req1.URL resp1 = true then resp2
       else resp1).StatusCode ∧
    (∀ name : String,
      (ServeHTTP h amb s ResponseWriter.fresh r).resp.ResponseWriter.snapHeader.Values name =
      (if fallbackCondition h.config.IndexFilename req1.URL resp1 = true then resp2
       else resp1).Header.Values name) ∧
    (ServeHTTP h amb s ResponseWriter.fresh r).resp.ResponseWriter.Body =
      (if fallbackCondition h.config.IndexFilename req1.URL resp1 = true then resp2
       else resp1).Body ∧
    (resp1.StatusCode = 404 →
      fallbackCondition h.config.IndexFilename req1.URL resp1 = false →
      (ServeHTTP h amb s ResponseWriter.fresh r).resp.ResponseWriter.Code = 404) := by
  have hc : (serve h amb s ResponseWriter.fresh r).calls.head? = some req1 := by
    simpa [ServeHTTP] using hc1
  obtain ⟨-, -, hnr, hreq⟩ := serve_calls_head h amb s ResponseWriter.fresh r req1 hc
  subst hreq
  have hurl : (primaryRequest h.config r).URL = upstreamURL h.config r := rfl
  have hpan : ∀ st : State σ, (logRequest h amb r st).panicked = st.panicked := by
    intro st
    unfold logRequest
    split
    · cases st.err <;> rfl
    · rfl
  rw [hurl] at hfb hcode ⊢
  cases hcond : fallbackCondition h.config.IndexFilename (upstreamURL h.config r) resp1 with
  | false =>
    have hcode1 : resp1.StatusCode = 101 ∨ (200 ≤ resp1.StatusCode ∧ resp1.StatusCode ≤ 999) := by
      simpa [hcond] using hcode
    have hs := serve_no_fallback h amb s s1 ResponseWriter.fresh r resp1 hm hp hnr hdo1 hcond
    obtain ⟨hr, hp2⟩ := passthrough_fresh
      ({ State.start s ResponseWriter.fresh r with
          client := s1, calls := [primaryRequest h.config r] }) resp1 rfl hcode1
    simp only [ServeHTTP, logRequest_resp, hpan, hs, hr, hp2]
    refine ⟨rfl, trivial, by simp, ?_, by simp, ?_⟩
    · intro name
      simp [copyHeader_Values resp1.Header [] name hwf1, Header.Values]
    · intro h404 _
      exact h404
  | true =>
    have hcode2 : resp2.StatusCode = 101 ∨ (200 ≤ resp2.StatusCode ∧ resp2.StatusCode ≤ 999) := by
      simpa [hcond] using hcode
    obtain ⟨hc2, hdo2⟩ := hfb hcond
    have hc2 : (serve h amb s ResponseWriter.fresh r).calls[1]? = some req2 := by
      simpa [ServeHTTP] using hc2
    have hreq2 : req2 = fallbackRequest h.config r ∧
        amb.newRequestFailure r.Method
          (fallbackURL h.config.IndexFilename (upstreamURL h.config r)) = none := by
      rcases serve_calls h amb s s1 ResponseWriter.fresh r (.ok resp1) hm hp hnr hdo1
        with hcase | hcase
      · rw [hcase.1] at hc2
        simp at hc2
      · rw [hcase.1] at hc2
        simp at hc2
        obtain ⟨resp, hresp, -, hnone⟩ := hcase.2.2
        exact ⟨hc2.symm, hnone⟩
    obtain ⟨hreq2, hnr2⟩ := hreq2
    subst hreq2
    have hs := serve_fallback_ok h amb s s1 s2 ResponseWriter.fresh r resp1 resp2 hm hp hnr
      hdo1 hcond hnr2 hdo2
    obtain ⟨hr, hp2⟩ := passthrough_fresh
      ({ State.start s ResponseWriter.fresh r with
          client := s2, calls := [primaryRequest h.config r, fallbackRequest h.config r],
          log := h.logger.emit [] DebugLevel [] ("File not found; trying " ++
            fallbackURL h.config.IndexFilename (upstreamURL h.config r)) }) resp2 rfl hcode2
    simp only [ServeHTTP, logRequest_resp, hpan, hs, hr, hp2]
    refine ⟨rfl, trivial, by simp, ?_, by simp, ?_⟩
    · intro name
      simp [copyHeader_Values resp2.Header [] name hwf2, Header.Values]
    · intro _ hfalse
      simp at hfalse

/-- Claim C1, amended, at a GET request for `/dir/` with index filename
`index.html` whose primary call is answered 404 and whose fallback call is
answered 200 with body `hello`: the caller receives 200. -/
theorem passthrough_mirrors_chosen_response_witness :
    ((exampleRequest "GET" "/dir/" "/dir/").Method = "GET" ∨
      (exampleRequest "GET" "/dir/" "/dir/").Method = "HEAD") ∧
    (exampleRequest "GET" "/dir/" "/dir/").URL.Path ≠ "/" ∧
    scriptedClient.Do [.ok notFound, .ok hello]
      (primaryRequest (exampleConfig false "index.html") (exampleRequest "GET" "/dir/" "/dir/"))
      = (.ok notFound, [.ok hello]) ∧
    scriptedClient.Do [.ok hello]
      (fallbackRequest (exampleConfig false "index.html") (exampleRequest "GET" "/dir/" "/dir/"))
      = (.ok hello, []) ∧
    notFound.Header.WF ∧ hello.Header.WF ∧
    fallbackCondition "index.html"
      (primaryRequest (exampleConfig false "index.html")
        (exampleRequest "GET" "/dir/" "/dir/")).URL notFound = true ∧
    (200 ≤ hello.StatusCode ∧ hello.StatusCode ≤ 999) ∧
    (ServeHTTP (exampleHandler (exampleConfig false "index.html") 4) exampleAmbient
      [.ok notFound, .ok hello] ResponseWriter.fresh
      (exampleRequest "GET" "/dir/" "/dir/")).resp.ResponseWriter.Code = 200 ∧
    (ServeHTTP (exampleHandler (exampleConfig false "index.html") 4) exampleAmbient
      [.ok notFound, .ok hello] ResponseWriter.fresh
      (exampleRequest "GET" "/dir/" "/dir/")).resp.ResponseWriter.Body = bytesOf "hello" :=
  ⟨by decide, by decide, rfl, rfl, by decide, by decide, by decide, by decide,
   (passthrough_mirrors_chosen_response
      (exampleHandler (exampleConfig false "index.html") 4) exampleAmbient
      [.ok notFound, .ok hello] [.ok hello] [] (exampleRequest "GET" "/dir/" "/dir/")
      (primaryRequest (exampleConfig false "index.html") (exampleRequest "GET" "/dir/" "/dir/"))
      (fallbackRequest (exampleConfig false "index.html")
        (exampleRequest "GET" "/dir/" "/dir/"))
      notFound hello (by decide) (by decide) (by decide) rfl
      (fun _ => ⟨by decide, rfl⟩) (by decide) (by decide) (by decide)).2.2.1.trans (by decide),
   (passthrough_mirrors_chosen_response
      (exampleHandler (exampleConfig false "index.html") 4) exampleAmbient
      [.ok notFound, .ok hello] [.ok hello] [] (exampleRequest "GET" "/dir/" "/dir/")
      (primaryRequest (exampleConfig false "index.html") (exampleRequest "GET" "/dir/" "/dir/"))
      (fallbackRequest (exampleConfig false "index.html")
        (exampleRequest "GET" "/dir/" "/dir/"))
      notFound hello (by decide) (by decide) (by decide) rfl
      (fun _ => ⟨by decide, rfl⟩) (by decide) (by decide) (by decide)).2.2.2.2.1.trans
        (by decide)⟩

/-! ## The number of upstream calls -/

/-- Claim C3 as stated fails: with an index filename that makes the fallback
URL unparseable, a GET request for `/dir` whose primary call is answered 404
meets the three conditions of the fallback, yet only one request is handed
to the client, because `http.NewRequest` fails for the fallback URL and the
handler answers 500. -/
theorem fallback_call_count_counterexample :
    (exampleRequest "GET" "/dir" "/dir").Method = "GET" ∧
    (exampleRequest "GET" "/dir" "/dir").URL.Path ≠ "/" ∧
    scriptedClient.Do [.ok notFound, .ok hello]
      (primaryRequest (exampleConfig false "index\t.html") (exampleRequest "GET" "/dir" "/dir"))
      = (.ok notFound, [.ok hello]) ∧
    ((exampleConfig false "index\t.html").IndexFilename ≠ "" ∧
      HasSuffix (upstreamURL (exampleConfig false "index\t.html")
        (exampleRequest "GET" "/dir" "/dir"))
        ("/" ++ (exampleConfig false "index\t.html").IndexFilename) = false ∧
      notFound.StatusCode = 404) ∧
    (ServeHTTP (exampleHandler (exampleConfig false "index\t.html") 4) strictAmbient
      [.ok notFound, .ok hello] ResponseWriter.fresh
      (exampleRequest "GET" "/dir" "/dir")).calls =
      [primaryRequest (exampleConfig false "index\t.html")
        (exampleRequest "GET" "/dir" "/dir")] ∧
    (ServeHTTP (exampleHandler (exampleConfig false "index\t.html") 4) strictAmbient
      [.ok notFound, .ok hello] ResponseWriter.fresh
      (exampleRequest "GET" "/dir" "/dir")).calls.length ≠ 2 ∧
    (ServeHTTP (exampleHandler (exampleConfig false "index\t.html") 4) strictAmbient
      [.ok notFound, .ok hello] ResponseWriter.fresh
      (exampleRequest "GET" "/dir" "/dir")).resp.ResponseWriter.Code = 500 :=
  ⟨by decide, by decide, rfl, by decide, by decide, by decide, by decide⟩

/-- Claim C3, amended: for a GET or HEAD request with a path other than `/`
whose primary call returns a response, the handler hands exactly two
requests to the client if and only if the index filename is non-empty, the
primary URL does not end with `/` and the index filename, the primary status
is exactly 404 and the fallback request can be built; in every other such
case it hands over exactly one (so a primary 200, or an empty index
filename, gives one call).  The second call runs in the client state that
the first call left behind. -/
theorem fallback_call_count {σ : Type} (h : proxyHandler σ) (amb : Ambient) (s s1 : σ)
    (r : InboundRequest) (req1 : Request) (resp1 : Response)
    (hm : r.Method = "GET" ∨ r.Method = "HEAD") (hp : r.URL.Path ≠ "/")
    (hc1 : (ServeHTTP h amb s ResponseWriter.fresh r).calls.head? = some req1)
    (hdo1 : h.hc.Do s req1 = (.ok resp1, s1)) :
    ((ServeHTTP h amb s ResponseWriter.fresh r).calls.length = 2 ↔
      (h.config.IndexFilename ≠ "" ∧
       HasSuffix req1.URL ("/" ++ h.config.IndexFilename) = false ∧
       resp1.StatusCode = 404 ∧
       amb.newRequestFailure r.Method (fallbackURL h.config.IndexFilename req1.URL) = none)) ∧
    ((ServeHTTP h amb s ResponseWriter.fresh r).calls.length = 1 ∨
      (ServeHTTP h amb s ResponseWriter.fresh r).calls.length = 2) ∧
    ((ServeHTTP h amb s ResponseWriter.fresh r).calls.length = 1 →
      (ServeHTTP h amb s ResponseWriter.fresh r).client = s1) ∧
    (∀ req2 : Request, (ServeHTTP h amb s ResponseWriter.fresh r).calls[1]? = some req2 →
      (ServeHTTP h amb s ResponseWriter.fresh r).calls = [req1, req2] ∧
      (ServeHTTP h amb s ResponseWriter.fresh r).client = (h.hc.Do s1 req2).2) ∧
    (resp1.StatusCode = 200 → (ServeHTTP h amb s ResponseWriter.fresh r).calls.length = 1) ∧
    (h.config.IndexFilename = "" →
      (ServeHTTP h amb s ResponseWriter.fresh r).calls.length = 1) := by
  have hc : (serve h amb s ResponseWriter.fresh r).calls.head? = some req1 := by
    simpa [ServeHTTP] using hc1
  obtain ⟨-, -, hnr, hreq⟩ := serve_calls_head h amb s ResponseWriter.fresh r req1 hc
  subst hreq
  have hurl : (primaryRequest h.config r).URL = upstreamURL h.config r := rfl
  have hcond : ∀ resp : Response,
      fallbackCondition h.config.IndexFilename (upstreamURL h.config r) resp = true ↔
      (h.config.IndexFilename ≠ "" ∧
       HasSuffix (upstreamURL h.config r) ("/" ++ h.config.IndexFilename) = false ∧
       resp.StatusCode = 404) := by
    intro resp
    simp [fallbackCondition, and_assoc]
  simp only [ServeHTTP, logRequest_calls, logRequest_client, hurl]
  rcases serve_calls h amb s s1 ResponseWriter.fresh r (.ok resp1) hm hp hnr hdo1
    with ⟨hcalls, hclient, hno⟩ | ⟨hcalls, hclient, resp, hresp, hfb, hnr2⟩
  · have hno2 : ¬ (h.config.IndexFilename ≠ "" ∧
        HasSuffix (upstreamURL h.config r) ("/" ++ h.config.IndexFilename) = false ∧
        resp1.StatusCode = 404 ∧
        amb.newRequestFailure r.Method
          (fallbackURL h.config.IndexFilename (upstreamURL h.config r)) = none) := by
      intro hh
      exact hno ⟨resp1, rfl, (hcond resp1).2 ⟨hh.1, hh.2.1, hh.2.2.1⟩, hh.2.2.2⟩
    rw [hcalls]
    refine ⟨?_, Or.inl rfl, fun _ => hclient, ?_, fun _ => rfl, fun _ => rfl⟩
    · constructor
      · intro hlen
        simp at hlen
      · intro hh
        exact absurd hh hno2
    · intro req2 hreq2
      simp at hreq2
  · have hresp1 : resp = resp1 := by
      injection hresp with hh
      exact hh.symm
    subst hresp1
    have hyes := (hcond resp).1 hfb
    rw [hcalls]
    refine ⟨?_, Or.inr rfl, ?_, ?_, ?_, ?_⟩
    · constructor
      · intro _
        exact ⟨hyes.1, hyes.2.1, hyes.2.2, hnr2⟩
      · intro _
        rfl
    · intro hlen
      simp at hlen
    · intro req2 hreq2
      simp at hreq2
      subst hreq2
      exact ⟨rfl, hclient⟩
    · intro h200
      rw [hyes.2.2] at h200
      exact absurd h200 (by decide)
    · intro hidx
      exact absurd hidx hyes.1

/-- Claim C3, amended, at a GET request for `/dir` with index filename
`index.html` whose primary call is answered 404: two requests are handed to
the client. -/
theorem fallback_call_count_witness :
    ((exampleRequest "GET" "/dir" "/dir").Method = "GET" ∨
      (exampleRequest "GET" "/dir" "/dir").Method = "HEAD") ∧
    (exampleRequest "GET" "/dir" "/dir").URL.Path ≠ "/" ∧
    (ServeHTTP (exampleHandler (exampleConfig false "index.html") 4) exampleAmbient
      [.ok notFound, .ok hello] ResponseWriter.fresh
      (exampleRequest "GET" "/dir" "/dir")).calls.head? =
      some (primaryRequest (exampleConfig false "index.html")
        (exampleRequest "GET" "/dir" "/dir")) ∧
    scriptedClient.Do [.ok notFound, .ok hello]
      (primaryRequest (exampleConfig false "index.html") (exampleRequest "GET" "/dir" "/dir"))
      = (.ok notFound, [.ok hello]) ∧
    (ServeHTTP (exampleHandler (exampleConfig false "index.html") 4) exampleAmbient
      [.ok notFound, .ok hello] ResponseWriter.fresh
      (exampleRequest "GET" "/dir" "/dir")).calls.length = 2 :=
  ⟨by decide, by decide, by decide, rfl,
   ((fallback_call_count (exampleHandler (exampleConfig false "index.html") 4) exampleAmbient
      [.ok notFound, .ok hello] [.ok hello] (exampleRequest "GET" "/dir" "/dir")
      (primaryRequest (exampleConfig false "index.html") (exampleRequest "GET" "/dir" "/dir"))
      notFound (by decide) (by decide) (by decide) rfl).1).2
      ⟨by decide, by decide, by decide, rfl⟩⟩

/-! ## Upstream failures -/

/-- Claim C6 as stated fails: when the primary call of a GET request for
`/a/b.txt` fails with the message `boom`, the caller receives status 500 but
the body is not the message itself: it is the message followed by a line
feed, as `http.Error` prints it. -/
theorem upstream_failure_body_counterexample :
    scriptedClient.Do [.error "boom"]
      (primaryRequest (exampleConfig false "") (exampleRequest "GET" "/a/b.txt" "/a/b.txt"))
      = (.error "boom", []) ∧
    (ServeHTTP (exampleHandler (exampleConfig false "") 4) exampleAmbient [.error "boom"]
      ResponseWriter.fresh (exampleRequest "GET" "/a/b.txt" "/a/b.txt")).resp.ResponseWriter.Code
      = 500 ∧
    (ServeHTTP (exampleHandler (exampleConfig false "") 4) exampleAmbient [.error "boom"]
      ResponseWriter.fresh (exampleRequest "GET" "/a/b.txt" "/a/b.txt")).resp.ResponseWriter.Body
      = bytesOf "boom\n" ∧
    (ServeHTTP (exampleHandler (exampleConfig false "") 4) exampleAmbient [.error "boom"]
      ResponseWriter.fresh (exampleRequest "GET" "/a/b.txt" "/a/b.txt")).resp.ResponseWriter.Body
      ≠ bytesOf "boom" :=
  ⟨rfl, by decide, by decide, by decide⟩

/-- Claim C6, amended: for a GET or HEAD request with a path other than `/`,
if the primary call, or the fallback call when one is made, returns an error
`e`, the caller receives status 500 whose body is the message of `e`
followed by a line feed, with the two headers of `http.Error` and nothing of
an upstream response; `e` is recorded for logging and logged at error
severity; and no further request is handed to the client: one request in
all when the primary call fails, two when the fallback call fails. -/
theorem upstream_failure_yields_500 {σ : Type} (h : proxyHandler σ) (amb : Ambient)
    (s s1 s2 : σ) (r : InboundRequest) (req1 req2 : Request) (resp1 : Response) (e : String)
    (hm : r.Method = "GET" ∨ r.Method = "HEAD") (hp : r.URL.Path ≠ "/")
    (hc1 : (ServeHTTP h amb s ResponseWriter.fresh r).calls.head? = some req1)
    (hfail : h.hc.Do s req1 = (.error e, s1) ∨
      (h.hc.Do s req1 = (.ok resp1, s1) ∧
       (ServeHTTP h amb s ResponseWriter.fresh r).calls[1]? = some req2 ∧
       h.hc.Do s1 req2 = (.error e, s2))) :
    (ServeHTTP h amb s ResponseWriter.fresh r).resp.ResponseWriter.wroteHeader = true ∧
    (ServeHTTP h amb s ResponseWriter.fresh r).resp.ResponseWriter.Code = 500 ∧
    (ServeHTTP h amb s ResponseWriter.fresh r).resp.ResponseWriter.Body = bytesOf (e ++ "\n") ∧
    (ServeHTTP h amb s ResponseWriter.fresh r).resp.ResponseWriter.snapHeader =
      [("Content-Type", ["text/plain; charset=utf-8"]),
       ("X-Content-Type-Options", ["nosniff"])] ∧
    (ServeHTTP h amb s ResponseWriter.fresh r).err = some e ∧
    (h.logger.Level ≥ ErrorLevel →
      ∃ entry ∈ (ServeHTTP h amb s ResponseWriter.fresh r).log,
        entry.Level = ErrorLevel ∧ entry.Data.get "error" = some (FieldValue.str e)) ∧
    (h.hc.Do s req1 = (.error e, s1) →
      (ServeHTTP h amb s ResponseWriter.fresh r).calls = [req1] ∧
      (ServeHTTP h amb s ResponseWriter.fresh r).client = s1) ∧
    (h.hc.Do s req1 = (.ok resp1, s1) →
      (ServeHTTP h amb s ResponseWriter.fresh r).calls = [req1, req2] ∧
      (ServeHTTP h amb s ResponseWriter.fresh r).client = s2) := by
  have hc : (serve h amb s ResponseWriter.fresh r).calls.head? = some req1 := by
    simpa [ServeHTTP] using hc1
  obtain ⟨-, -, hnr, hreq⟩ := serve_calls_head h amb s ResponseWriter.fresh r req1 hc
  subst hreq
  have hlog : ∀ st : State σ, st.err = some e → h.logger.Level ≥ ErrorLevel →
      ∃ entry ∈ (logRequest h amb r st).log,
        entry.Level = ErrorLevel ∧ entry.Data.get "error" = some (FieldValue.str e) := by
    intro st hst hlevel
    refine ⟨{ Level := ErrorLevel, Message := "failed to handle request",
              Data := (logFields h amb r st).set "error" (FieldValue.str e) }, ?_, rfl,
            Fields.get_set _ _ _⟩
    simp [logRequest, hst, Logger.emit, hlevel]
  rcases hfail with hdo1 | ⟨hdo1, hc2, hdo2⟩
  · have hs := serve_primary_failed h amb s s1 ResponseWriter.fresh r e hm hp hnr hdo1
    have herr : (serve h amb s ResponseWriter.fresh r).err = some e := by
      rw [hs]; rfl
    refine ⟨?_, ?_, ?_, ?_, ?_, hlog _ herr, ?_, ?_⟩
    · simp only [ServeHTTP, logRequest_resp, hs, State.httpError, State.start,
        Error_fresh e 500 (by decide)]
    · simp only [ServeHTTP, logRequest_resp, hs, State.httpError, State.start,
        Error_fresh e 500 (by decide)]
    · simp only [ServeHTTP, logRequest_resp, hs, State.httpError, State.start,
        Error_fresh e 500 (by decide)]
    · simp only [ServeHTTP, logRequest_resp, hs, State.httpError, State.start,
        Error_fresh e 500 (by decide)]
    · simpa [ServeHTTP] using herr
    · intro _
      simp [ServeHTTP, hs]
    · intro hok
      rw [hdo1] at hok
      simp at hok
  · have hc2 : (serve h amb s ResponseWriter.fresh r).calls[1]? = some req2 := by
      simpa [ServeHTTP] using hc2
    have hreq2 : req2 = fallbackRequest h.config r ∧
        fallbackCondition h.config.IndexFilename (upstreamURL h.config r) resp1 = true ∧
        amb.newRequestFailure r.Method
          (fallbackURL h.config.IndexFilename (upstreamURL h.config r)) = none := by
      rcases serve_calls h amb s s1 ResponseWriter.fresh r (.ok resp1) hm hp hnr hdo1
        with hcase | hcase
      · rw [hcase.1] at hc2
        simp at hc2
      · rw [hcase.1] at hc2
        simp at hc2
        obtain ⟨resp, hresp, hfb, hnone⟩ := hcase.2.2
        have hresp1 : resp = resp1 := by
          injection hresp with hh
          exact hh.symm
        subst hresp1
        exact ⟨hc2.symm, hfb, hnone⟩
    obtain ⟨hreq2, hfb, hnr2⟩ := hreq2
    subst hreq2
    have hs := serve_fallback_failed h amb s s1 s2 ResponseWriter.fresh r resp1 e hm hp hnr
      hdo1 hfb hnr2 hdo2
    have herr : (serve h amb s ResponseWriter.fresh r).err = some e := by
      rw [hs]; rfl
    refine ⟨?_, ?_, ?_, ?_, ?_, hlog _ herr, ?_, ?_⟩
    · simp only [ServeHTTP, logRequest_resp, hs, State.httpError, State.start,
        Error_fresh e 500 (by decide)]
    · simp only [ServeHTTP, logRequest_resp, hs, State.httpError, State.start,
        Error_fresh e 500 (by decide)]
    · simp only [ServeHTTP, logRequest_resp, hs, State.httpError, State.start,
        Error_fresh e 500 (by decide)]
    · simp only [ServeHTTP, logRequest_resp, hs, State.httpError, State.start,
        Error_fresh e 500 (by decide)]
    · simpa [ServeHTTP] using herr
    · intro herr1
      rw [hdo1] at herr1
      simp at herr1
    · intro _
      simp [ServeHTTP, hs]

/-- Claim C6, amended, at a GET request for `/dir` with index filename
`index.html` whose primary call is answered 404 and whose fallback call
fails with `boom`: the caller receives 500. -/
theorem upstream_failure_yields_500_witness :
    ((exampleRequest "GET" "/dir" "/dir").Method = "GET" ∨
      (exampleRequest "GET" "/dir" "/dir").Method = "HEAD") ∧
    (exampleRequest "GET" "/dir" "/dir").URL.Path ≠ "/" ∧
    (ServeHTTP (exampleHandler (exampleConfig false "index.html") 4) exampleAmbient
      [.ok notFound, .error "boom"] ResponseWriter.fresh
      (exampleRequest "GET" "/dir" "/dir")).calls.head? =
      some (primaryRequest (exampleConfig false "index.html")
        (exampleRequest "GET" "/dir" "/dir")) ∧
    (scriptedClient.Do [.ok notFound, .error "boom"]
      (primaryRequest (exampleConfig false "index.html") (exampleRequest "GET" "/dir" "/dir"))
      = (.ok notFound, [.error "boom"]) ∧
     (ServeHTTP (exampleHandler (exampleConfig false "index.html") 4) exampleAmbient
      [.ok notFound, .error "boom"] ResponseWriter.fresh
      (exampleRequest "GET" "/dir" "/dir")).calls[1]? =
      some (fallbackRequest (exampleConfig false "index.html")
        (exampleRequest "GET" "/dir" "/dir")) ∧
     scriptedClient.Do [.error "boom"]
      (fallbackRequest (exampleConfig false "index.html") (exampleRequest "GET" "/dir" "/dir"))
      = (.error "boom", [])) ∧
    (ServeHTTP (exampleHandler (exampleConfig false "index.html") 4) exampleAmbient
      [.ok notFound, .error "boom"] ResponseWriter.fresh
      (exampleRequest "GET" "/dir" "/dir")).resp.ResponseWriter.Code = 500 :=
  ⟨by decide, by decide, by decide, ⟨rfl, by decide, rfl⟩,
   (upstream_failure_yields_500 (exampleHandler (exampleConfig false "index.html") 4)
      exampleAmbient [.ok notFound, .error "boom"] [.error "boom"] []
      (exampleRequest "GET" "/dir" "/dir")
      (primaryRequest (exampleConfig false "index.html") (exampleRequest "GET" "/dir" "/dir"))
      (fallbackRequest (exampleConfig false "index.html") (exampleRequest "GET" "/dir" "/dir"))
      notFound "boom" (by decide) (by decide) (by decide)
      (Or.inr ⟨rfl, by decide, rfl⟩)).2.1⟩

/-! ## The fallback request and the log record at concrete requests -/

/-- Claim C4 at a request with a query string: for GET `/dir?x=1` with index
filename `index.html` and a primary 404, the fallback request goes to the
primary URL with `/index.html` appended behind the query, so it does not
target the inbound path `/dir` with the index filename appended. -/
theorem fallback_url_with_query :
    (exampleRequest "GET" "/dir" "/dir?x=1").URL.Path = "/dir" ∧
    ((ServeHTTP (exampleHandler (exampleConfig false "index.html") 4) exampleAmbient
      [.ok notFound, .ok notFound] ResponseWriter.fresh
      (exampleRequest "GET" "/dir" "/dir?x=1")).calls.map (fun req => req.URL)) =
      ["https://my-bucket.storage.googleapis.com/dir?x=1",
       "https://my-bucket.storage.googleapis.com/dir?x=1/index.html"] ∧
    "https://my-bucket.storage.googleapis.com/dir?x=1/index.html" ≠
      "https://my-bucket.storage.googleapis.com/dir/index.html?x=1" ∧
    "https://my-bucket.storage.googleapis.com/dir?x=1/index.html" ≠
      "https://my-bucket.storage.googleapis.com/dir/index.html" := by
  decide

/-- Claim C9 at a triggered fallback: for GET `/dir` with index filename
`index.html` and a primary 404, the primary request carries the deadline
context derived from the inbound context with the proxy timeout, while the
fallback request carries the background context. -/
theorem fallback_request_context :
    ((ServeHTTP (exampleHandler (exampleConfig false "index.html") 4) exampleAmbient
      [.ok notFound, .ok hello] ResponseWriter.fresh
      (exampleRequest "GET" "/dir" "/dir")).calls.map (fun req => req.ctx)) =
      [Context.WithTimeout (exampleRequest "GET" "/dir" "/dir").ctx
         (exampleConfig false "index.html").Proxy.Timeout,
       Context.Background] ∧
    Context.Background ≠
      Context.WithTimeout (exampleRequest "GET" "/dir" "/dir").ctx
        (exampleConfig false "index.html").Proxy.Timeout := by
  decide

/-- Claim C10 at three requests: for a GET whose primary call fails the
caller receives 500, for a POST 405 and for a GET of `/` 200, and in all
three the end-of-request log record carries the response code 0. -/
theorem logged_response_code_early_exit :
    ((ServeHTTP (exampleHandler (exampleConfig false "") 5) exampleAmbient [.error "boom"]
      ResponseWriter.fresh (exampleRequest "GET" "/a/b.txt" "/a/b.txt")).resp.ResponseWriter.Code
      = 500 ∧
     (ServeHTTP (exampleHandler (exampleConfig false "") 5) exampleAmbient [.error "boom"]
      ResponseWriter.fresh (exampleRequest "GET" "/a/b.txt" "/a/b.txt")).log.map
        (fun entry => (entry.Level, entry.Data.get "response")) =
      [(ErrorLevel, some (FieldValue.int 0))]) ∧
    ((ServeHTTP (exampleHandler (exampleConfig false "") 5) exampleAmbient [.ok hello]
      ResponseWriter.fresh (exampleRequest "POST" "/a/b.txt" "/a/b.txt")).resp.ResponseWriter.Code
      = 405 ∧
     (ServeHTTP (exampleHandler (exampleConfig false "") 5) exampleAmbient [.ok hello]
      ResponseWriter.fresh (exampleRequest "POST" "/a/b.txt" "/a/b.txt")).log.map
        (fun entry => (entry.Level, entry.Data.get "response")) =
      [(DebugLevel, some (FieldValue.int 0))]) ∧
    ((ServeHTTP (exampleHandler (exampleConfig false "") 5) exampleAmbient [.ok hello]
      ResponseWriter.fresh (exampleRequest "GET" "/" "/")).resp.ResponseWriter.Code = 200 ∧
     (ServeHTTP (exampleHandler (exampleConfig false "") 5) exampleAmbient [.ok hello]
      ResponseWriter.fresh (exampleRequest "GET" "/" "/")).log.map
        (fun entry => (entry.Level, entry.Data.get "response")) =
      [(DebugLevel, some (FieldValue.int 0))]) := by
  decide

end GcsHelper
